import Mathlib

/-!
Shallow embedding of the `test-babylon-mmd` viewer (src/src/sceneBuilder.ts,
src/src/main.ts) in Lean 4, together with theorems settling the frozen claims
about its specification.

The repository is orchestration code: it kicks off four parallel asset loads
(`Promise.all`), wires the loaded motion tracks to an MMD runtime, registers a
one-shot render optimization, and manages a WebXR session (camera swap,
post-processing flags, thumbstick locomotion, button-to-exit mapping).  Each
section below embeds the relevant fragment of the source and proves or refutes
the corresponding claim.
-/

namespace MmdViewer

/-! ## Asset loading (`SceneBuilder.loadAssets`, `SceneBuilder.build`)

`loadAssets` returns `Promise.all([wasm, bodyMotion, cameraMotion, model])`.
We embed promise outcomes as settlement results carrying an abstract settle
time, and `Promise.all` by its standard semantics: resolve at the latest
resolve time once all four resolve; reject at the earliest rejection time as
soon as any task rejects (earlier task index breaks ties). -/

/-- Outcome of one asynchronous load task: it either resolves at some time
with a value, or rejects at some time with an error message. -/
inductive TaskResult (α : Type) where
  | resolved (time : Nat) (value : α)
  | rejected (time : Nat) (error : String)
deriving DecidableEq, Repr

/-- The time at which a task settles (resolves or rejects). -/
def TaskResult.settleTime {α : Type} : TaskResult α → Nat
  | .resolved t _ => t
  | .rejected t _ => t

/-- Whether the task rejected. -/
def TaskResult.isRejected {α : Type} : TaskResult α → Bool
  | .resolved _ _ => false
  | .rejected _ _ => true

/-- The rejection data of a task, when it rejected. -/
def TaskResult.rejection {α : Type} : TaskResult α → Option (Nat × String)
  | .resolved _ _ => none
  | .rejected t e => some (t, e)

/-- The rejections among the four tasks, in `Promise.all` argument order. -/
def rejections {α β γ δ : Type} (a : TaskResult α) (b : TaskResult β)
    (c : TaskResult γ) (d : TaskResult δ) : List (Nat × String) :=
  [a.rejection, b.rejection, c.rejection, d.rejection].filterMap id

/-- `Promise.all` over the four load tasks of `loadAssets`
(WASM instance, body motion, camera motion, model mesh): resolves with the
4-tuple at the latest resolve time when all four resolve, and rejects with
the earliest rejection (ties broken by task order) as soon as any one task
rejects.  The `.rejected 0 ""` fallback is unreachable: in the second branch
at least one task rejected, so the rejection list is nonempty. -/
def promiseAll4 {α β γ δ : Type} (a : TaskResult α) (b : TaskResult β)
    (c : TaskResult γ) (d : TaskResult δ) : TaskResult (α × β × γ × δ) :=
  match a, b, c, d with
  | .resolved ta va, .resolved tb vb, .resolved tc vc, .resolved td vd =>
      .resolved (max (max ta tb) (max tc td)) (va, vb, vc, vd)
  | _, _, _, _ =>
      match (rejections a b c d).argmin Prod.fst with
      | some r => .rejected r.1 r.2
      | none => .rejected 0 ""

/-- Abstract handle for a fully built scene: `build` returns the scene only
when every load task resolved, carrying the four loaded values. -/
structure BuiltScene (α β γ δ : Type) where
  wasmInstance : α
  bodyMotion : β
  cameraMotion : γ
  modelMesh : δ
deriving DecidableEq, Repr

/-- `SceneBuilder.build` around the load barrier: it awaits
`loadAssets` (the `Promise.all` above); on rejection the `catch` block logs
the error (`console.error`) and rethrows it, so the build promise rejects
with the same error and no scene is returned.  The result is the list of
logged errors together with the build outcome. -/
def build {α β γ δ : Type} (a : TaskResult α) (b : TaskResult β)
    (c : TaskResult γ) (d : TaskResult δ) :
    List String × Except String (BuiltScene α β γ δ) :=
  match promiseAll4 a b c d with
  | .resolved _ (va, vb, vc, vd) => ([], .ok ⟨va, vb, vc, vd⟩)
  | .rejected _ e => ([e], .error e)

/-! ## Loading-progress aggregation (`updateLoadingText` in
`SceneBuilder.loadAssets`)

`loadAssets` keeps a `loadingTexts` array; each progress callback writes its
formatted line at a fixed index (0 = body motion, 1 = camera motion,
2 = model) and re-renders `engine.loadingUIText` as a fixed prefix plus the
array joined with `"<br/><br/>"`.  The WASM-instance task
(`getMmdWasmInstance(new MmdWasmInstanceTypeSPR())`) is called with no
progress callback, so it owns no slot and reports no progress. -/

/-- The four load tasks started by `loadAssets`. -/
inductive LoadTask where
  | wasmInstance
  | bodyMotion
  | cameraMotion
  | modelMesh
deriving DecidableEq, Repr, Fintype

/-- The fixed `loadingTexts` slot index each load task writes its progress
line to, read off the `updateLoadingText(index, ...)` call sites:
body motion → 0, camera motion → 1, model → 2; the WASM-instance load has no
progress callback and therefore no slot. -/
def progressSlot : LoadTask → Option Nat
  | .wasmInstance => none
  | .bodyMotion => some 0
  | .cameraMotion => some 1
  | .modelMesh => some 2

/-- The progress line a task's callback formats from a `ProgressEvent`
(`event.loaded`, `event.total`), mirroring the template literals in
`loadAssets` (percentage is `Math.floor(loaded * 100 / total)`). -/
def progressText : LoadTask → Nat → Nat → String
  | .wasmInstance, _, _ => ""
  | .bodyMotion, loaded, total =>
      s!"モーションを読み込み中... {loaded}/{total} ({loaded * 100 / total}%)"
  | .cameraMotion, loaded, total =>
      s!"カメラモーションを読み込み中... {loaded}/{total} ({loaded * 100 / total}%)"
  | .modelMesh, loaded, total =>
      s!"モデルを読み込み中... {loaded}/{total} ({loaded * 100 / total}%)"

/-- One byte-progress event raised by a load task's fetch. -/
structure ProgressEvent where
  task : LoadTask
  loaded : Nat
  total : Nat
deriving DecidableEq, Repr

/-- The `loadingTexts` JavaScript array: slots hold the last written string
(`none` = never written / hole), and `length` is the array length, which a
write at index `i` extends to `i + 1` when needed. -/
structure LoadingTexts where
  slot : Nat → Option String
  length : Nat

/-- The empty `loadingTexts` array (`const loadingTexts: string[] = []`). -/
def LoadingTexts.initial : LoadingTexts :=
  { slot := fun _ => none, length := 0 }

/-- `loadingTexts[index] = text`: store the string at its slot and extend the
array length when the index is past the end. -/
def LoadingTexts.write (st : LoadingTexts) (index : Nat) (text : String) :
    LoadingTexts :=
  { slot := fun j => if j = index then some text else st.slot j,
    length := max st.length (index + 1) }

/-- Processing one progress event: the task's callback calls
`updateLoadingText(slot, formattedText)`; a task without a slot (the WASM
load) reports nothing. -/
def LoadingTexts.onProgress (st : LoadingTexts) (e : ProgressEvent) :
    LoadingTexts :=
  match progressSlot e.task with
  | some i => st.write i (progressText e.task e.loaded e.total)
  | none => st

/-- Processing a whole sequence of progress events in order. -/
def LoadingTexts.run (evs : List ProgressEvent) : LoadingTexts :=
  evs.foldl LoadingTexts.onProgress LoadingTexts.initial

/-- The string `updateLoadingText` assigns to `engine.loadingUIText`: a fixed
prefix followed by the array joined with `"<br/><br/>"` (JavaScript `join`
renders holes as empty strings). -/
def LoadingTexts.render (st : LoadingTexts) : String :=
  "<br/><br/><br/><br/>" ++
    String.intercalate "<br/><br/>"
      ((List.range st.length).map fun i => (st.slot i).getD "")

/-- The latest text reported for slot `i` over an event sequence: the last
formatted line of an event whose task owns slot `i`. -/
def latestText (evs : List ProgressEvent) (i : Nat) : Option String :=
  evs.foldl
    (fun acc e =>
      if progressSlot e.task = some i then
        some (progressText e.task e.loaded e.total)
      else acc)
    none

/-! ## Build / playback-setup ordering (`SceneBuilder.build`,
`SceneBuilder.setupMmdRuntime`)

`build` awaits `loadAssets` and then calls `setupMmdRuntime`, whose body is a
fixed synchronous statement sequence.  We embed that sequence as the list of
steps in source order. -/

/-- The ordered steps of `build` around and inside `setupMmdRuntime`,
in source order. -/
inductive BuildStep where
  | assetsLoaded        -- `await this.loadAssets(mmdRoot)` completes
  | createRuntime       -- `new MmdWasmRuntime(...)`
  | registerRuntime     -- `mmdRuntime.register(this.scene)`
  | setAudioPlayer      -- `mmdRuntime.setAudioPlayer(audioPlayer)`
  | playAnimation       -- `mmdRuntime.playAnimation()`
  | showPlayerControl   -- `mmdPlayerControl.showPlayerControl()`
  | setCamera           -- `mmdRuntime.setCamera(mmdCamera)`
  | createWasmAnimations -- `new MmdWasmAnimation(...)` twice
  | cameraAddAnimation  -- `mmdCamera.addAnimation(cameraWasmAnimation)`
  | cameraSetAnimation  -- `mmdCamera.setAnimation("cameraMotion")`
  | parentModel         -- `modelMesh.parent = mmdRoot`
  | setupShadows        -- receiveShadows loop + `addShadowCaster(modelMesh)`
  | createMmdModel      -- `mmdRuntime.createMmdModel(modelMesh)`
  | modelAddAnimation   -- `mmdModel.addAnimation(mmdWasmAnimation)`
  | modelSetAnimation   -- `mmdModel.setAnimation("motion")`
  | createGroundPhysics -- `mmdRuntime.physics?.createGroundModel?.([0])`
  | registerOptimize    -- `this.optimizeScene()`
deriving DecidableEq, Repr

/-- The statement sequence of `build`'s post-load phase, transcribed from
`SceneBuilder.build` and `SceneBuilder.setupMmdRuntime` in source order. -/
def buildTrace : List BuildStep :=
  [.assetsLoaded, .createRuntime, .registerRuntime, .setAudioPlayer,
   .playAnimation, .showPlayerControl, .setCamera, .createWasmAnimations,
   .cameraAddAnimation, .cameraSetAnimation, .parentModel, .setupShadows,
   .createMmdModel, .modelAddAnimation, .modelSetAnimation,
   .createGroundPhysics, .registerOptimize]

/-- Position of a step in the build trace (all steps occur exactly once). -/
def stepIndex (s : BuildStep) : Nat := buildTrace.indexOf s

/-! ## VR session display configuration (`setupRenderingPipeline`,
`setupEnterVrButton`, the `onStateChangedObservable` handler in
`setupXRExperience`)

The observable state the enter/exit handlers touch: the two post-processing
flags of the `DefaultRenderingPipeline`, the scene's active camera, and the
visibility of the `enterVrButton` DOM element. -/

/-- The two post-processing flags the VR handlers write. -/
structure PipelineFlags where
  fxaaEnabled : Bool
  chromaticAberrationEnabled : Bool
deriving DecidableEq, Repr

/-- Which camera is the scene's active camera. -/
inductive ActiveCamera where
  | mmdCamera
  | xrCamera
deriving DecidableEq, Repr

/-- The display configuration the VR enter/exit handlers read and write. -/
structure DisplayConfig where
  pipeline : PipelineFlags
  activeCamera : ActiveCamera
  enterVrButtonVisible : Bool
deriving DecidableEq, Repr

/-- `DefaultRenderingPipeline` constructs every optional effect disabled;
the chromatic-aberration effect in particular stays disabled until
`chromaticAberrationEnabled` is set, which this repository never does before
VR entry. -/
def chromaticAberrationDefault : Bool := false

/-- The pipeline flags right after `setupRenderingPipeline`: it sets
`defaultPipeline.fxaaEnabled = true` and never touches
`chromaticAberrationEnabled`. -/
def setupRenderingPipelineFlags : PipelineFlags :=
  { fxaaEnabled := true,
    chromaticAberrationEnabled := chromaticAberrationDefault }

/-- The display configuration after `build` finishes (pipeline set up, MMD
camera active, enter-VR button appended and visible). -/
def initialDisplayConfig : DisplayConfig :=
  { pipeline := setupRenderingPipelineFlags,
    activeCamera := .mmdCamera,
    enterVrButtonVisible := true }

/-- The success path of the `enterVrButton` click handler after
`enterXRAsync` resolves: disable FXAA and chromatic aberration, activate the
XR camera, hide the button (`enterVrButton.style.display = "none"`). -/
def applyEnterVr (_s : DisplayConfig) : DisplayConfig :=
  { pipeline := { fxaaEnabled := false, chromaticAberrationEnabled := false },
    activeCamera := .xrCamera,
    enterVrButtonVisible := false }

/-- The `onStateChangedObservable` handler on `NOT_IN_XR`: set
`fxaaEnabled = true` and `chromaticAberrationEnabled = true`, show the
enter-VR button, and set the scene's active camera back to `mmdCamera`. -/
def applyExitVr (_s : DisplayConfig) : DisplayConfig :=
  { pipeline := { fxaaEnabled := true, chromaticAberrationEnabled := true },
    activeCamera := .mmdCamera,
    enterVrButtonVisible := true }

/-- The whole `enterVrButton` click handler: it makes exactly one
`enterXRAsync` request; when negotiation succeeds the success path runs; when
it rejects, the `await` throws out of the handler before any of the
configuration writes, leaving the configuration unchanged and surfacing the
error.  Returns (resulting configuration, surfaced error if any, number of
session requests made). -/
def enterVrClick (s : DisplayConfig) (negotiation : Except String Unit) :
    DisplayConfig × Option String × Nat :=
  match negotiation with
  | .ok _ => (applyEnterVr s, none, 1)
  | .error e => (s, some e, 1)

/-! ## Controller buttons → session exit (second
`onControllerAddedObservable` subscription in `setupXRExperience`)

For every component id of every motion controller, when the component's type
is not `"thumbstick"` a `onButtonStateChangedObservable` callback is
registered that calls `xr.baseExperience.exitXRAsync()` whenever
`component.pressed` is true. -/

/-- Which hand a controller is held in (WebXR handedness). -/
inductive Handedness where
  | left
  | right
  | noHand
deriving DecidableEq, Repr

/-- WebXR motion-controller component types. -/
inductive ComponentType where
  | thumbstick
  | button
  | trigger
  | squeeze
  | touchpad
deriving DecidableEq, Repr

/-- A motion-controller component, identified by its hand and type. -/
structure ControllerComponent where
  hand : Handedness
  ctype : ComponentType
deriving DecidableEq, Repr

/-- A button-state-changed event: the component it fires on, and the value of
`component.pressed` at the time the callback runs (a press event carries
`pressed = true`, a release carries `pressed = false`). -/
structure ButtonEvent where
  component : ControllerComponent
  pressed : Bool
deriving DecidableEq, Repr

/-- Whether the exit callback was registered on a component: the source
registers it iff `component.type !== "thumbstick"`. -/
def exitHandlerRegistered (c : ControllerComponent) : Bool :=
  c.ctype != ComponentType.thumbstick

/-- Number of `exitXRAsync` calls one event's callback makes: the registered
callback calls it exactly once when `component.pressed`, else not at all, and
an unregistered component has no callback. -/
def exitRequestsOf (e : ButtonEvent) : Nat :=
  if exitHandlerRegistered e.component then
    if e.pressed then 1 else 0
  else 0

/-- Total `exitXRAsync` calls over a sequence of button events. -/
def totalExitRequests (evs : List ButtonEvent) : Nat :=
  (evs.map exitRequestsOf).sum

/-! ## One-shot render optimization (`SceneBuilder.optimizeScene`)

`optimizeScene` registers a `scene.onAfterRenderObservable.addOnce` callback.
The callback runs after the next completed frame, once, and then the
subscription is gone.  When it runs it freezes materials, iterates over
`scene.meshes` setting the per-mesh flags, and sets the scene-level flags.
Meshes added to the scene later are plain Babylon meshes with the default
flag values. -/

/-- The per-mesh flags `optimizeScene` writes, with their Babylon defaults
for a freshly added mesh. -/
structure MeshFlags where
  worldMatrixFrozen : Bool := false
  doNotSyncBoundingInfo : Bool := false
  isPickable : Bool := true
  alwaysSelectAsActiveMesh : Bool := false
deriving DecidableEq, Repr

/-- A mesh in the scene: an identifier plus its optimization flags. -/
structure SceneMesh where
  id : Nat
  flags : MeshFlags
deriving DecidableEq, Repr

/-- The flag values the optimization callback writes on every mesh present:
`freezeWorldMatrix()`, `doNotSyncBoundingInfo = true`, `isPickable = false`,
`alwaysSelectAsActiveMesh = true`. -/
def optimizedFlags : MeshFlags :=
  { worldMatrixFrozen := true, doNotSyncBoundingInfo := true,
    isPickable := false, alwaysSelectAsActiveMesh := true }

/-- Scene state relevant to `optimizeScene`: the mesh list, the scene-level
flags, whether the `addOnce` subscription is still pending, and how many
times the optimization callback has run. -/
structure OptScene where
  meshes : List SceneMesh
  materialsFrozen : Bool
  skipPointerMovePicking : Bool
  skipPointerDownPicking : Bool
  skipPointerUpPicking : Bool
  skipFrustumClipping : Bool
  blockMaterialDirtyMechanism : Bool
  oncePending : Bool
  optimizeRuns : Nat
deriving DecidableEq, Repr

/-- Scene state right after `optimizeScene` returns: the callback is
registered (`oncePending`), nothing is frozen yet, and the meshes present are
whatever the build placed in the scene. -/
def OptScene.afterSetup (initMeshes : List SceneMesh) : OptScene :=
  { meshes := initMeshes,
    materialsFrozen := false,
    skipPointerMovePicking := false,
    skipPointerDownPicking := false,
    skipPointerUpPicking := false,
    skipFrustumClipping := false,
    blockMaterialDirtyMechanism := false,
    oncePending := true,
    optimizeRuns := 0 }

/-- Events affecting the optimization state: a completed render frame, or a
mesh being added to the scene. -/
inductive SceneEvent where
  | frameEnd
  | addMesh (id : Nat)
deriving DecidableEq, Repr

/-- The body of the `addOnce` callback: freeze materials, set the four flags
on every mesh currently in `scene.meshes`, and set the five scene-level
flags. -/
def OptScene.runOptimize (s : OptScene) : OptScene :=
  { s with
    meshes := s.meshes.map fun m => { m with flags := optimizedFlags },
    materialsFrozen := true,
    skipPointerMovePicking := true,
    skipPointerDownPicking := true,
    skipPointerUpPicking := true,
    skipFrustumClipping := true,
    blockMaterialDirtyMechanism := true,
    optimizeRuns := s.optimizeRuns + 1 }

/-- One step of the event loop: `onAfterRenderObservable` fires at frame end
and, because the callback was registered with `addOnce`, runs it only while
the subscription is pending and then removes it; adding a mesh appends it
with default flags. -/
def OptScene.step (s : OptScene) : SceneEvent → OptScene
  | .frameEnd =>
      if s.oncePending then { s.runOptimize with oncePending := false } else s
  | .addMesh id => { s with meshes := s.meshes ++ [⟨id, {}⟩] }

/-- Run the event loop from the post-setup state. -/
def OptScene.run (initMeshes : List SceneMesh) (evs : List SceneEvent) :
    OptScene :=
  evs.foldl OptScene.step (OptScene.afterSetup initMeshes)

/-- The meshes a list of events adds, in order, with default flags. -/
def addedMeshes (evs : List SceneEvent) : List SceneMesh :=
  evs.filterMap fun e =>
    match e with
    | .addMesh id => some ⟨id, {}⟩
    | .frameEnd => none

/-! ## VR locomotion (thumbstick handlers in `setupXRExperience`)

The right-hand thumbstick translates `this.cameraRoot`, the left-hand
thumbstick rotates it.  Scalar arithmetic is embedded over the reals.  The
camera direction vectors `getDirection(Vector3.Backward())` and
`getDirection(Vector3.Right())` are computed by the engine from the headset
pose, so the handlers are parametrised by them. -/

/-- Babylon `WebXRState` values. -/
inductive WebXRState where
  | ENTERING_XR
  | EXITING_XR
  | IN_XR
  | NOT_IN_XR
deriving DecidableEq, Repr

/-- A 3-component vector (Babylon `Vector3`), over the reals. -/
structure Vec3 where
  x : ℝ
  y : ℝ
  z : ℝ

/-- Componentwise vector addition (`Vector3.add`). -/
def Vec3.add (v w : Vec3) : Vec3 := ⟨v.x + w.x, v.y + w.y, v.z + w.z⟩

/-- Scalar multiplication (`Vector3.scale`). -/
def Vec3.scale (v : Vec3) (s : ℝ) : Vec3 := ⟨v.x * s, v.y * s, v.z * s⟩

/-- Euclidean length (`Vector3.length`). -/
noncomputable def Vec3.length (v : Vec3) : ℝ :=
  Real.sqrt (v.x ^ 2 + v.y ^ 2 + v.z ^ 2)

/-- Babylon `Vector3.normalize`: scale to unit length, leaving the zero
vector unchanged (`normalizeFromLength` returns the vector as is when the
length is 0). -/
noncomputable def Vec3.normalize (v : Vec3) : Vec3 :=
  if v.length = 0 then v else v.scale (1 / v.length)

/-- Zeroing the `y` component, as in `forward.y = 0` / `right.y = 0`. -/
def Vec3.projGround (v : Vec3) : Vec3 := ⟨v.x, 0, v.z⟩

/-- A thumbstick axes event (`axes.x`, `axes.y`). -/
structure StickAxes where
  x : ℝ
  y : ℝ

/-- The state of `this.cameraRoot` (a `TransformNode`) the two thumbstick
handlers read and write: its position and its Euler rotation components. -/
structure CameraRoot where
  position : Vec3
  rotationX : ℝ
  rotationY : ℝ
  rotationZ : ℝ

/-- `cameraRoot` as freshly constructed (`new TransformNode`): position and
rotation both zero. -/
def CameraRoot.initial : CameraRoot :=
  { position := ⟨0, 0, 0⟩, rotationX := 0, rotationY := 0, rotationZ := 0 }

/-- The right-hand thumbstick handler (`handedness === "right"`): while
`IN_XR`, project both camera direction vectors onto the ground plane,
normalize them, combine them with the stick axes scaled by `0.1`, and add
the movement to `cameraRoot.position`; in any other session state do
nothing.  `forwardDir` is `camera.getDirection(Vector3.Backward())` and
`rightDir` is `camera.getDirection(Vector3.Right())`. -/
noncomputable def translationStep (state : WebXRState)
    (forwardDir rightDir : Vec3) (axes : StickAxes) (root : CameraRoot) :
    CameraRoot :=
  if state = WebXRState.IN_XR then
    let forward := forwardDir.projGround.normalize
    let right := rightDir.projGround.normalize
    let movement := (forward.scale (axes.y * 0.1)).add
      (right.scale (axes.x * 0.1))
    { root with position := root.position.add movement }
  else root

/-- The rotation speed constant of the left-hand handler. -/
noncomputable def rotationSpeed : ℝ := 0.05

/-- The left-hand thumbstick handler (`handedness === "left"`): while
`IN_XR`, decrement yaw by `axes.x * rotationSpeed` and pitch by
`axes.y * rotationSpeed`, then clamp the pitch to `[-π/2, π/2]` with
`Math.max(-Math.PI / 2, Math.min(Math.PI / 2, rotation.x))`; in any other
session state do nothing. -/
noncomputable def rotationStep (state : WebXRState) (axes : StickAxes)
    (root : CameraRoot) : CameraRoot :=
  if state = WebXRState.IN_XR then
    let ry := root.rotationY - axes.x * rotationSpeed
    let rx := root.rotationX - axes.y * rotationSpeed
    { root with
      rotationY := ry,
      rotationX := max (-(Real.pi / 2)) (min (Real.pi / 2) rx) }
  else root

/-- Cumulative effect of a sequence of left-stick axis events while in VR,
starting from the freshly created `cameraRoot`. -/
noncomputable def runRotation (evs : List StickAxes) : CameraRoot :=
  evs.foldl (fun st a => rotationStep WebXRState.IN_XR a st)
    CameraRoot.initial

/-! ## Theorems -/

/-- Helper: a rejection of any of the four tasks is in the rejection list. -/
theorem mem_rejections {α β γ δ : Type} (a : TaskResult α) (b : TaskResult β)
    (c : TaskResult γ) (d : TaskResult δ) (t : Nat) (e : String)
    (h : a.rejection = some (t, e) ∨ b.rejection = some (t, e) ∨
      c.rejection = some (t, e) ∨ d.rejection = some (t, e)) :
    (t, e) ∈ rejections a b c d := by
  simp only [rejections]
  refine List.mem_filterMap.mpr ⟨some (t, e), ?_, rfl⟩
  rcases h with h | h | h | h <;> simp [h]

/-- Helper: whenever some rejection is in the list, the barrier settles no
later than it. -/
theorem promiseAll4_settle_le {α β γ δ : Type} (a : TaskResult α)
    (b : TaskResult β) (c : TaskResult γ) (d : TaskResult δ) (t : Nat)
    (e : String) (h : (t, e) ∈ rejections a b c d) :
    (promiseAll4 a b c d).settleTime ≤ t := by
  cases a <;> cases b <;> cases c <;> cases d <;>
    first
      | (simp [rejections, TaskResult.rejection] at h; done)
      | (simp only [promiseAll4]
         split
         · next r hm =>
             simpa [TaskResult.settleTime] using
               List.le_of_mem_argmin h (Option.mem_def.mpr hm)
         · simp [TaskResult.settleTime])

/-- Helper: if any task rejected, the barrier is rejected. -/
theorem promiseAll4_isRejected_of_any {α β γ δ : Type} (a : TaskResult α)
    (b : TaskResult β) (c : TaskResult γ) (d : TaskResult δ)
    (h : a.isRejected = true ∨ b.isRejected = true ∨ c.isRejected = true ∨
      d.isRejected = true) :
    (promiseAll4 a b c d).isRejected = true := by
  cases a <;> cases b <;> cases c <;> cases d <;>
    first
      | (simp [TaskResult.isRejected] at h; done)
      | (simp only [promiseAll4]
         split <;> simp [TaskResult.isRejected])

/-- C1: the asset load is all-or-nothing.  The `Promise.all` barrier in
`loadAssets` resolves only when all four load tasks (WASM instance, body
motion, camera motion, model mesh) have resolved, and not before the last of
them; if any task rejects, the barrier rejects, settling no later than that
task's rejection time (so it does not wait for the remaining tasks); and on
rejection `build` logs the error and rethrows it, returning no
partially-built scene. -/
theorem build_all_or_nothing {α β γ δ : Type} (a : TaskResult α)
    (b : TaskResult β) (c : TaskResult γ) (d : TaskResult δ) :
    ((promiseAll4 a b c d).isRejected = false →
      a.isRejected = false ∧ b.isRejected = false ∧ c.isRejected = false ∧
        d.isRejected = false ∧
      a.settleTime ≤ (promiseAll4 a b c d).settleTime ∧
      b.settleTime ≤ (promiseAll4 a b c d).settleTime ∧
      c.settleTime ≤ (promiseAll4 a b c d).settleTime ∧
      d.settleTime ≤ (promiseAll4 a b c d).settleTime) ∧
    ((a.isRejected = true ∨ b.isRejected = true ∨ c.isRejected = true ∨
        d.isRejected = true) →
      (promiseAll4 a b c d).isRejected = true) ∧
    (∀ t e, a.rejection = some (t, e) →
      (promiseAll4 a b c d).settleTime ≤ t) ∧
    (∀ t e, b.rejection = some (t, e) →
      (promiseAll4 a b c d).settleTime ≤ t) ∧
    (∀ t e, c.rejection = some (t, e) →
      (promiseAll4 a b c d).settleTime ≤ t) ∧
    (∀ t e, d.rejection = some (t, e) →
      (promiseAll4 a b c d).settleTime ≤ t) ∧
    (∀ t e, promiseAll4 a b c d = .rejected t e →
      build a b c d = ([e], Except.error e)) := by
  refine ⟨?_, promiseAll4_isRejected_of_any a b c d, ?_, ?_, ?_, ?_, ?_⟩
  · intro hres
    cases a <;> cases b <;> cases c <;> cases d <;>
      first
        | (simp only [promiseAll4] at hres
           split at hres <;> simp [TaskResult.isRejected] at hres)
        | simp [promiseAll4, TaskResult.isRejected, TaskResult.settleTime]
  · intro t e h
    exact promiseAll4_settle_le a b c d t e
      (mem_rejections a b c d t e (Or.inl h))
  · intro t e h
    exact promiseAll4_settle_le a b c d t e
      (mem_rejections a b c d t e (Or.inr (Or.inl h)))
  · intro t e h
    exact promiseAll4_settle_le a b c d t e
      (mem_rejections a b c d t e (Or.inr (Or.inr (Or.inl h))))
  · intro t e h
    exact promiseAll4_settle_le a b c d t e
      (mem_rejections a b c d t e (Or.inr (Or.inr (Or.inr h))))
  · intro t e h
    simp [build, h]

/-- Witness for C1: a concrete run in which the body-motion fetch rejects at
time 5 while the other three tasks resolve; the barrier rejects and `build`
logs and rethrows the same error. -/
theorem build_all_or_nothing_witness :
    (promiseAll4 (TaskResult.resolved 1 (0 : Nat))
      (TaskResult.rejected 5 "network error" : TaskResult Nat)
      (TaskResult.resolved 9 (0 : Nat))
      (TaskResult.resolved 2 (0 : Nat))).isRejected = true ∧
    build (TaskResult.resolved 1 (0 : Nat))
      (TaskResult.rejected 5 "network error" : TaskResult Nat)
      (TaskResult.resolved 9 (0 : Nat)) (TaskResult.resolved 2 (0 : Nat)) =
      (["network error"], Except.error "network error") := by
  refine ⟨?_, ?_⟩
  · exact (build_all_or_nothing _ _ _ _).2.1 (Or.inr (Or.inl rfl))
  · exact (build_all_or_nothing (TaskResult.resolved 1 (0 : Nat))
      (TaskResult.rejected 5 "network error" : TaskResult Nat)
      (TaskResult.resolved 9 (0 : Nat))
      (TaskResult.resolved 2 (0 : Nat))).2.2.2.2.2.2 5 "network error" rfl

/-- Helper: the content of slot `i` after processing events from any start
state is the fold of the per-event slot-`i` updates over the start content. -/
theorem foldl_onProgress_slot (evs : List ProgressEvent) (st : LoadingTexts)
    (i : Nat) :
    ((evs.foldl LoadingTexts.onProgress st).slot i) =
      evs.foldl
        (fun acc e =>
          if progressSlot e.task = some i then
            some (progressText e.task e.loaded e.total)
          else acc)
        (st.slot i) := by
  induction evs generalizing st with
  | nil => rfl
  | cons e evs ih =>
      simp only [List.foldl_cons]
      rw [ih]
      congr 1
      cases hslot : progressSlot e.task with
      | none => simp [LoadingTexts.onProgress, hslot]
      | some j =>
          simp only [LoadingTexts.onProgress, hslot, LoadingTexts.write]
          by_cases hij : i = j <;> simp [hij, eq_comm]

/-- C4 counterexample: the claim as stated assigns each of the four load
tasks its own progress slot, but the WASM-instance load
(`getMmdWasmInstance(new MmdWasmInstanceTypeSPR())`) is started with no
progress callback and owns no slot — only three of the four tasks report
progress. -/
theorem not_all_four_tasks_have_slots :
    ¬ (∀ t : LoadTask, (progressSlot t).isSome) := by
  decide

/-- C4 (amended): the loader aggregates the byte-progress streams of the
three progress-reporting load tasks into one multi-line status string — body
motion owns slot 0, camera motion slot 1, model slot 2, no two reporting
tasks share a slot, and the WASM-instance load owns none — and after any
sequence of progress events every slot holds exactly the latest text
reported by the resource owning it (so the rendered status string shows the
latest byte counts of each resource in its own slot, never mixing two
resources into one slot). -/
theorem loadingText_latest_per_slot (evs : List ProgressEvent) :
    (progressSlot LoadTask.bodyMotion = some 0 ∧
      progressSlot LoadTask.cameraMotion = some 1 ∧
      progressSlot LoadTask.modelMesh = some 2 ∧
      progressSlot LoadTask.wasmInstance = none) ∧
    (∀ t u : LoadTask, (progressSlot t).isSome →
      progressSlot t = progressSlot u → t = u) ∧
    (∀ i, (LoadingTexts.run evs).slot i = latestText evs i) ∧
    (LoadingTexts.run evs).render =
      "<br/><br/><br/><br/>" ++
        String.intercalate "<br/><br/>"
          ((List.range (LoadingTexts.run evs).length).map
            fun i => (latestText evs i).getD "") := by
  have hslots : ∀ i, (LoadingTexts.run evs).slot i = latestText evs i := by
    intro i
    exact foldl_onProgress_slot evs LoadingTexts.initial i
  refine ⟨⟨rfl, rfl, rfl, rfl⟩, by decide, hslots, ?_⟩
  unfold LoadingTexts.render
  exact congrArg
    (fun l => "<br/><br/><br/><br/>" ++ String.intercalate "<br/><br/>" l)
    (List.map_congr_left fun i _ => by rw [hslots i])

/-- C3 counterexample: in the build trace transcribed from
`SceneBuilder.build` / `setupMmdRuntime`, `mmdRuntime.playAnimation()` is
executed strictly before the camera track is attached
(`mmdCamera.addAnimation`/`setAnimation`) and strictly before the body track
is attached (`mmdModel.addAnimation`/`setAnimation`), so the playback clock
is not started only after both attachments. -/
theorem playAnimation_before_attach :
    stepIndex BuildStep.playAnimation <
        stepIndex BuildStep.cameraAddAnimation ∧
      stepIndex BuildStep.playAnimation <
        stepIndex BuildStep.modelAddAnimation ∧
      ¬ (stepIndex BuildStep.cameraAddAnimation <
          stepIndex BuildStep.playAnimation ∧
        stepIndex BuildStep.modelAddAnimation <
          stepIndex BuildStep.playAnimation) := by
  decide

/-- C3 (amended): attachment happens only after loading completes — in the
build trace, the completion of `loadAssets` precedes attaching the camera
track and the body track (and their `setAnimation` activations) — and
`mmdRuntime.playAnimation()` is likewise executed only after loading
completes, but it precedes both attachments rather than following them; the
trace visits each step exactly once. -/
theorem attach_after_load_play_before_attach :
    buildTrace.Nodup ∧
    stepIndex BuildStep.assetsLoaded <
        stepIndex BuildStep.cameraAddAnimation ∧
      stepIndex BuildStep.assetsLoaded <
        stepIndex BuildStep.cameraSetAnimation ∧
      stepIndex BuildStep.assetsLoaded <
        stepIndex BuildStep.modelAddAnimation ∧
      stepIndex BuildStep.assetsLoaded <
        stepIndex BuildStep.modelSetAnimation ∧
      stepIndex BuildStep.assetsLoaded < stepIndex BuildStep.playAnimation ∧
      stepIndex BuildStep.playAnimation <
        stepIndex BuildStep.cameraAddAnimation ∧
      stepIndex BuildStep.playAnimation <
        stepIndex BuildStep.modelAddAnimation := by
  decide

/-- C2 counterexample: starting from the display configuration established
by `build` (FXAA on, chromatic aberration at its constructor default, i.e.
off), entering VR and exiting again does not reinstate the pre-entry
post-processing flags: the exit handler unconditionally sets
`chromaticAberrationEnabled = true`, though it was `false` immediately
before VR entry. -/
theorem vr_exit_does_not_restore_flags :
    (applyExitVr (applyEnterVr initialDisplayConfig)).pipeline ≠
        initialDisplayConfig.pipeline ∧
      initialDisplayConfig.pipeline.chromaticAberrationEnabled = false ∧
      (applyExitVr
          (applyEnterVr initialDisplayConfig)).pipeline.chromaticAberrationEnabled =
        true := by
  decide

/-- C2 (amended): on the IN_VR → NOT_IN_VR transition the scene's active
camera is restored to the pre-VR MMD camera and the enter-VR button is shown
again, but the post-processing flags are set to the fixed values
`fxaaEnabled = true` and `chromaticAberrationEnabled = true` regardless of
their pre-entry values; for the configuration `build` establishes this
coincides with the pre-entry FXAA value while chromatic aberration, off
before entry, comes back on. -/
theorem vr_exit_restores_camera_sets_fixed_flags (s : DisplayConfig) :
    (applyExitVr (applyEnterVr s)).activeCamera = ActiveCamera.mmdCamera ∧
      (applyExitVr (applyEnterVr s)).enterVrButtonVisible = true ∧
      (applyExitVr (applyEnterVr s)).pipeline =
        { fxaaEnabled := true, chromaticAberrationEnabled := true } ∧
      (applyExitVr
          (applyEnterVr initialDisplayConfig)).pipeline.fxaaEnabled =
        initialDisplayConfig.pipeline.fxaaEnabled :=
  ⟨rfl, rfl, rfl, rfl⟩

/-- C9: if immersive-session negotiation fails when the enter-VR button is
clicked, the `await enterXRAsync` rejection leaves the click handler before
any configuration write: the display configuration is returned unchanged
(active camera, post-processing flags, and button visibility all as before),
the failure is surfaced as the handler's error, and exactly one session
request was made — no retry. -/
theorem enterVr_failure_leaves_scene (s : DisplayConfig) (e : String)
    (neg : Except String Unit) (h : neg = Except.error e) :
    enterVrClick s neg = (s, some e, 1) ∧
      (enterVrClick s neg).1.activeCamera = s.activeCamera ∧
      (enterVrClick s neg).1.pipeline = s.pipeline ∧
      (enterVrClick s neg).1.enterVrButtonVisible = s.enterVrButtonVisible := by
  subst h
  exact ⟨rfl, rfl, rfl, rfl⟩

/-- Witness for C9: a concrete failed negotiation on the configuration
`build` establishes leaves it untouched, surfaces the error, and makes a
single request. -/
theorem enterVr_failure_leaves_scene_witness :
    enterVrClick initialDisplayConfig
        (Except.error "immersive-vr session request failed") =
      (initialDisplayConfig,
        some "immersive-vr session request failed", 1) :=
  (enterVr_failure_leaves_scene initialDisplayConfig
    "immersive-vr session request failed"
    (Except.error "immersive-vr session request failed") rfl).1

/-- Helper: the total number of exit requests over a button-event sequence
counts exactly the events on handler-carrying components whose `pressed`
state is true. -/
theorem totalExitRequests_eq_filter (evs : List ButtonEvent) :
    totalExitRequests evs =
      (evs.filter fun e =>
        e.pressed && exitHandlerRegistered e.component).length := by
  induction evs with
  | nil => rfl
  | cons e evs ih =>
      by_cases h1 : exitHandlerRegistered e.component <;>
        by_cases h2 : e.pressed <;>
        simp [totalExitRequests, exitRequestsOf, List.filter_cons, h1, h2,
          ← ih, totalExitRequests] <;>
        omega

/-- C7: every press event (`pressed = true`) of a controller component whose
type is not `"thumbstick"` makes the registered
`onButtonStateChangedObservable` callback issue exactly one
`exitXRAsync` request, regardless of the component's hand; release events
(`pressed = false`) issue none, and thumbstick components have no such
callback, so over any event sequence the number of exit requests equals the
number of pressed events on non-thumbstick components.  (The callback — run
only during a session — does not itself consult the session state.) -/
theorem nonThumbstick_press_exits (evs : List ButtonEvent) :
    totalExitRequests evs =
      (evs.filter fun e =>
        e.pressed && exitHandlerRegistered e.component).length ∧
      (∀ c : ControllerComponent, c.ctype ≠ ComponentType.thumbstick →
        exitRequestsOf ⟨c, true⟩ = 1) ∧
      (∀ c : ControllerComponent, exitRequestsOf ⟨c, false⟩ = 0) ∧
      (∀ c : ControllerComponent, c.ctype = ComponentType.thumbstick →
        ∀ b, exitRequestsOf ⟨c, b⟩ = 0) := by
  refine ⟨totalExitRequests_eq_filter evs, ?_, ?_, ?_⟩
  · intro c hc
    simp [exitRequestsOf, exitHandlerRegistered, hc]
  · intro c
    simp [exitRequestsOf]
  · intro c hc b
    simp [exitRequestsOf, exitHandlerRegistered, hc]

/-- Witness for C7: a left-hand trigger press issues one exit request, a
right-hand button release issues none, and a thumbstick press issues none. -/
theorem nonThumbstick_press_exits_witness :
    exitRequestsOf ⟨⟨Handedness.left, ComponentType.trigger⟩, true⟩ = 1 ∧
      exitRequestsOf ⟨⟨Handedness.right, ComponentType.button⟩, false⟩ = 0 ∧
      exitRequestsOf ⟨⟨Handedness.right, ComponentType.thumbstick⟩, true⟩ =
        0 :=
  ⟨(nonThumbstick_press_exits []).2.1 ⟨Handedness.left,
      ComponentType.trigger⟩ (by decide),
    (nonThumbstick_press_exits []).2.2.1 ⟨Handedness.right,
      ComponentType.button⟩,
    (nonThumbstick_press_exits []).2.2.2 ⟨Handedness.right,
      ComponentType.thumbstick⟩ rfl true⟩

/-- Helper: once the `addOnce` subscription has fired (`oncePending =
false`), further events only append default-flagged meshes: no re-trigger,
no unfreeze, and no change to any scene flag or to the run counter. -/
theorem foldl_step_after_fire (evs : List SceneEvent) (s : OptScene)
    (h : s.oncePending = false) :
    evs.foldl OptScene.step s =
      { s with meshes := s.meshes ++ addedMeshes evs } := by
  induction evs generalizing s with
  | nil => simp [addedMeshes]
  | cons e evs ih =>
      cases e with
      | frameEnd =>
          have hstep : OptScene.step s SceneEvent.frameEnd = s := by
            simp [OptScene.step, h]
          rw [List.foldl_cons, hstep, ih s h]
          simp [addedMeshes, List.filterMap_cons]
      | addMesh id =>
          have hstep : OptScene.step s (SceneEvent.addMesh id) =
              { s with meshes := s.meshes ++ [⟨id, {}⟩] } := rfl
          rw [List.foldl_cons, hstep,
            ih { s with meshes := s.meshes ++ [⟨id, {}⟩] } h]
          simp [addedMeshes, List.filterMap_cons]

/-- Helper: while no frame has completed, events only append
default-flagged meshes and the `addOnce` subscription stays pending. -/
theorem foldl_step_before_fire (evs : List SceneEvent) :
    ∀ s : OptScene, (∀ e ∈ evs, e ≠ SceneEvent.frameEnd) →
      evs.foldl OptScene.step s =
        { s with meshes := s.meshes ++ addedMeshes evs } := by
  induction evs with
  | nil =>
      intro s _
      simp [addedMeshes]
  | cons e evs ih =>
      intro s hevs
      cases e with
      | frameEnd => exact absurd rfl (hevs .frameEnd (by simp))
      | addMesh id =>
          have hstep : OptScene.step s (SceneEvent.addMesh id) =
              { s with meshes := s.meshes ++ [⟨id, {}⟩] } := rfl
          have hx : ∀ e ∈ evs, e ≠ SceneEvent.frameEnd :=
            fun e he => hevs e (List.mem_cons_of_mem _ he)
          rw [List.foldl_cons, hstep, ih _ hx]
          simp [addedMeshes, List.filterMap_cons]

/-- C8: the render optimization fires exactly once, at the first completed
frame after `optimizeScene` registered it.  For any event sequence split as
a frame-free prefix, the first completed frame, and an arbitrary suffix:
every mesh present at that first frame (the meshes present at registration
plus those added before the frame) carries the optimized flags in the final
state, every mesh added afterwards keeps the Babylon default flags, the
callback ran exactly once (later frames do not re-trigger it, and nothing
unfreezes), and the scene-level freeze flags are set. -/
theorem optimizeScene_once (initMeshes : List SceneMesh)
    (pre post : List SceneEvent)
    (hpre : ∀ e ∈ pre, e ≠ SceneEvent.frameEnd) :
    (OptScene.run initMeshes
        (pre ++ SceneEvent.frameEnd :: post)).meshes =
      ((initMeshes ++ addedMeshes pre).map
        fun m => { m with flags := optimizedFlags }) ++ addedMeshes post ∧
    (OptScene.run initMeshes
        (pre ++ SceneEvent.frameEnd :: post)).optimizeRuns = 1 ∧
    (OptScene.run initMeshes
        (pre ++ SceneEvent.frameEnd :: post)).materialsFrozen = true ∧
    (OptScene.run initMeshes
        (pre ++ SceneEvent.frameEnd :: post)).skipPointerMovePicking = true ∧
    (OptScene.run initMeshes
        (pre ++ SceneEvent.frameEnd :: post)).skipPointerDownPicking = true ∧
    (OptScene.run initMeshes
        (pre ++ SceneEvent.frameEnd :: post)).skipPointerUpPicking = true ∧
    (OptScene.run initMeshes
        (pre ++ SceneEvent.frameEnd :: post)).skipFrustumClipping = true ∧
    (OptScene.run initMeshes
        (pre ++ SceneEvent.frameEnd :: post)).blockMaterialDirtyMechanism =
      true := by
  have hrun : OptScene.run initMeshes (pre ++ SceneEvent.frameEnd :: post) =
      { meshes := ((initMeshes ++ addedMeshes pre).map
          fun m => { m with flags := optimizedFlags }) ++ addedMeshes post,
        materialsFrozen := true,
        skipPointerMovePicking := true,
        skipPointerDownPicking := true,
        skipPointerUpPicking := true,
        skipFrustumClipping := true,
        blockMaterialDirtyMechanism := true,
        oncePending := false,
        optimizeRuns := 1 } := by
    unfold OptScene.run
    rw [List.foldl_append,
      foldl_step_before_fire pre (OptScene.afterSetup initMeshes) hpre]
    simp only [List.foldl_cons, OptScene.step, OptScene.afterSetup,
      OptScene.runOptimize, if_pos]
    rw [foldl_step_after_fire post _ rfl]
  rw [hrun]
  exact ⟨rfl, rfl, rfl, rfl, rfl, rfl, rfl, rfl⟩

/-- Witness for C8: a concrete run — one mesh present at registration, one
added before the first frame, one added after it, and a second frame at the
end — optimizes exactly the first two meshes and runs the callback once. -/
theorem optimizeScene_once_witness :
    (OptScene.run ([⟨0, {}⟩] : List SceneMesh)
        ([SceneEvent.addMesh 1] ++ SceneEvent.frameEnd ::
          [SceneEvent.addMesh 2, SceneEvent.frameEnd])).meshes =
      ((([⟨0, {}⟩] : List SceneMesh) ++ addedMeshes [SceneEvent.addMesh 1]).map
        fun m => { m with flags := optimizedFlags }) ++
        addedMeshes [SceneEvent.addMesh 2, SceneEvent.frameEnd] ∧
    (OptScene.run ([⟨0, {}⟩] : List SceneMesh)
        ([SceneEvent.addMesh 1] ++ SceneEvent.frameEnd ::
          [SceneEvent.addMesh 2, SceneEvent.frameEnd])).optimizeRuns = 1 :=
  ⟨(optimizeScene_once ([⟨0, {}⟩] : List SceneMesh) [SceneEvent.addMesh 1]
      [SceneEvent.addMesh 2, SceneEvent.frameEnd] (by decide)).1,
    (optimizeScene_once ([⟨0, {}⟩] : List SceneMesh) [SceneEvent.addMesh 1]
      [SceneEvent.addMesh 2, SceneEvent.frameEnd] (by decide)).2.1⟩

/-- Helper: one rotation step while in VR always lands the pitch inside
`[-π/2, π/2]` — the clamp bounds are ordered since `π > 0`. -/
theorem rotationStep_pitch_mem (a : StickAxes) (st : CameraRoot) :
    -(Real.pi / 2) ≤ (rotationStep WebXRState.IN_XR a st).rotationX ∧
      (rotationStep WebXRState.IN_XR a st).rotationX ≤ Real.pi / 2 := by
  have hpi := Real.pi_pos
  simp only [rotationStep, if_pos rfl]
  exact ⟨le_max_left _ _, max_le (by linarith) (min_le_left _ _)⟩

/-- C5: under any sequence of left-stick rotation events while in VR, the
stored pitch (`cameraRoot.rotation.x`) stays within `[-π/2, π/2]`; moreover
a single step whose unclamped update would reach or pass `+π/2` stores
exactly `π/2`, and one that would reach or pass `-π/2` stores exactly
`-π/2`. -/
theorem pitch_clamped (evs : List StickAxes) :
    (-(Real.pi / 2) ≤ (runRotation evs).rotationX ∧
      (runRotation evs).rotationX ≤ Real.pi / 2) ∧
    (∀ (root : CameraRoot) (a : StickAxes),
      (Real.pi / 2 ≤ root.rotationX - a.y * rotationSpeed →
        (rotationStep WebXRState.IN_XR a root).rotationX = Real.pi / 2) ∧
      (root.rotationX - a.y * rotationSpeed ≤ -(Real.pi / 2) →
        (rotationStep WebXRState.IN_XR a root).rotationX =
          -(Real.pi / 2))) := by
  have hpi := Real.pi_pos
  constructor
  · have haux : ∀ (l : List StickAxes) (st : CameraRoot),
        -(Real.pi / 2) ≤ st.rotationX → st.rotationX ≤ Real.pi / 2 →
        -(Real.pi / 2) ≤
            (l.foldl (fun s a => rotationStep WebXRState.IN_XR a s)
              st).rotationX ∧
          (l.foldl (fun s a => rotationStep WebXRState.IN_XR a s)
            st).rotationX ≤ Real.pi / 2 := by
      intro l
      induction l with
      | nil => exact fun st h1 h2 => ⟨h1, h2⟩
      | cons a l ih =>
          intro st _ _
          exact ih _ (rotationStep_pitch_mem a st).1
            (rotationStep_pitch_mem a st).2
    exact haux evs CameraRoot.initial (by simp [CameraRoot.initial]; linarith)
      (by simp [CameraRoot.initial]; linarith)
  · intro root a
    constructor
    · intro hover
      simp only [rotationStep, if_pos rfl]
      rw [min_eq_left hover, max_eq_right (by linarith)]
      simp
    · intro hunder
      simp only [rotationStep, if_pos rfl]
      rw [min_eq_right (by linarith), max_eq_left hunder]
      simp

/-- Witness for C5: one event with stick `y = -100` from the initial pose
drives the unclamped pitch to `5 > π/2`, and the stored pitch is exactly
`π/2`. -/
theorem pitch_clamped_witness :
    (runRotation [⟨(0 : ℝ), (-100 : ℝ)⟩]).rotationX = Real.pi / 2 := by
  have hb : Real.pi / 2 ≤
      CameraRoot.initial.rotationX - (-100 : ℝ) * rotationSpeed := by
    have hpi := Real.pi_le_four
    simp only [CameraRoot.initial, rotationSpeed]
    norm_num
    linarith
  exact ((pitch_clamped []).2 CameraRoot.initial ⟨0, -100⟩).1 hb

/-- Helper: normalizing a vector with zero `y` component keeps the `y`
component zero (both in the zero-length case and when scaling by the inverse
length). -/
theorem normalize_y_zero (v : Vec3) (h : v.y = 0) : v.normalize.y = 0 := by
  unfold Vec3.normalize
  split_ifs with hl
  · exact h
  · simp [Vec3.scale, h]

/-- C6: while in VR, a translation-stick event with axes `(1, 0)` moves the
anchor node by exactly the camera's right direction vector with its `y`
component zeroed and then normalized, scaled by the sensitivity constant
`0.1`; that movement has zero vertical component, so the anchor's height is
unchanged. -/
theorem translation_x1_moves_along_right (forwardDir rightDir : Vec3)
    (root : CameraRoot) :
    (translationStep WebXRState.IN_XR forwardDir rightDir ⟨1, 0⟩
        root).position =
      root.position.add (rightDir.projGround.normalize.scale 0.1) ∧
      (rightDir.projGround.normalize.scale 0.1).y = 0 ∧
      (translationStep WebXRState.IN_XR forwardDir rightDir ⟨1, 0⟩
          root).position.y = root.position.y := by
  have hy : rightDir.projGround.normalize.y = 0 :=
    normalize_y_zero _ rfl
  refine ⟨?_, ?_, ?_⟩
  · simp only [translationStep, if_pos rfl]
    simp [Vec3.add, Vec3.scale, Vec3.mk.injEq]
  · simp [Vec3.scale, hy]
  · simp only [translationStep, if_pos rfl]
    simp [Vec3.add, Vec3.scale, hy]

/-- C10: any translation-stick event, with arbitrary axes and in any session
state, leaves the anchor node's vertical position unchanged — both direction
vectors have their `y` component zeroed before normalization and scaling —
and the handler never touches the anchor's rotation. -/
theorem translation_preserves_height_and_rotation (state : WebXRState)
    (forwardDir rightDir : Vec3) (axes : StickAxes) (root : CameraRoot) :
    (translationStep state forwardDir rightDir axes root).position.y =
        root.position.y ∧
      (translationStep state forwardDir rightDir axes root).rotationX =
        root.rotationX ∧
      (translationStep state forwardDir rightDir axes root).rotationY =
        root.rotationY ∧
      (translationStep state forwardDir rightDir axes root).rotationZ =
        root.rotationZ := by
  have hyf : forwardDir.projGround.normalize.y = 0 := normalize_y_zero _ rfl
  have hyr : rightDir.projGround.normalize.y = 0 := normalize_y_zero _ rfl
  unfold translationStep
  split_ifs with hstate
  · refine ⟨?_, rfl, rfl, rfl⟩
    simp [Vec3.add, Vec3.scale, hyf, hyr]
  · exact ⟨rfl, rfl, rfl, rfl⟩

end MmdViewer
